import Mathlib

/-!
Mist `main.js`: startup orchestration, onboarding network switch, shutdown, splash log.

A shallow embedding of the control flow of `src/main.js`:

* the `did-finish-load` handler of the splash window (lines 298-456),
* the onboarding callbacks and the `onBoarding_changeNet` handler (lines 405-452),
* the `before-quit` handler (lines 138-167),
* `logFunction` (lines 176-185).

The collaborators that live in other modules (`Sockets`, `ethereumNode`, `dialog`, `i18n`,
`checkNodeSync`, the logger) are not part of `main.js`.  Every call to one of them is recorded
as an `Action` in a trace, and the way each asynchronous call settles is an input of the model.
-/

namespace Mist

/-! ## Strings -/

/-- A JavaScript string: its sequence of UTF-16 code units. -/
abbrev JSString := List Nat

/-- The code units of a string literal of the source (all literals of `main.js` are ASCII). -/
def lit (s : String) : JSString := s.toList.map Char.toNat

/-- JavaScript `s.slice(-n)`: the code units from index `max (length - n) 0` on. -/
def sliceLast (n : Nat) (s : JSString) : JSString := s.drop (s.length - n)

/-! ## Observable actions and the world -/

/-- The calls `main.js` makes to its collaborators. -/
inductive Action where
  /-- `socket.connect({path: ipcPath})` (no timeout) or
  `socket.connect({path: ipcPath}, {timeout: t})`. -/
  | socketConnect (timeout : Option Nat)
  /-- `socket.destroy()` on the `node-ipc` socket. -/
  | socketDestroy
  /-- `log.<level>(msg, args...)`: the message and the further string arguments; an error
  object passed as last argument is not recorded. -/
  | log (level : String) (msg : JSString) (args : List JSString)
  /-- `NODE_LOGGER.trace(msg)`. -/
  | nodeLoggerTrace (msg : JSString)
  /-- `event.preventDefault()` on a `before-quit` event. -/
  | preventDefault
  /-- `Sockets.destroyAll()`. -/
  | socketsDestroyAll
  /-- `socket.destroy()` on the entry of `global.sockets` with the given id. -/
  | globalSocketDestroy (id : JSString)
  /-- `setTimeout(..., ms)`. -/
  | setTimeout (ms : Nat)
  /-- `appStartWindow.webContents.send(channel, key[, arg])`. -/
  | send (channel : String) (key : String) (arg : Option JSString)
  /-- `ethereumNode.start()` (`none`: no arguments, the module falls back on its default
  node type and network) or `ethereumNode.start(type, network)`. -/
  | nodeStart (args : Option (JSString × JSString))
  /-- `ethereumNode.stop()`. -/
  | nodeStop
  /-- `ethereumNode.getNodeLog()`. -/
  | getNodeLog
  /-- `ethereumNode.on(data, logFunction)`. -/
  | nodeOnData
  /-- `ethereumNode.removeListener(data, logFunction)`. -/
  | nodeRemoveDataListener
  /-- `dialog.showMessageBox({type, buttons: [OK], message, detail}, ...)`. -/
  | showMessageBox (type : String) (message : JSString) (detail : JSString)
  /-- `app.quit()`. -/
  | appQuit
  /-- `appMenu()`. -/
  | appMenu
  /-- `checkNodeSync(appStartWindow, <splash finished>, <onboarding>)`. -/
  | checkNodeSync
  /-- `appStartWindow.close()`. -/
  | splashClose
  /-- `popupWindow.show(name, ...)`. -/
  | popupShow (name : String)
  /-- `onboardingWindow.close()`. -/
  | onboardingClose
  /-- `popupWindow.loadingWindow.show()`. -/
  | loadingWindowShow
  /-- `global.mainWindow.loadURL(global.interfaceAppUrl)`. -/
  | mainWindowLoad
  deriving DecidableEq, Repr

/-- The errors a promise of the model can be rejected with. -/
inductive Err where
  /-- `socket.connect` was refused or timed out. -/
  | connect
  /-- `ethereumNode.start` failed. -/
  | spawn
  /-- `ethereumNode.stop` failed. -/
  | stop
  /-- A property of `null` was read (`appStartWindow.webContents` with no splash window). -/
  | typeError
  deriving DecidableEq, Repr

/-- The mutable state `main.js` reads and writes, with the trace of the calls made so far. -/
structure World where
  /-- The variable `appStartWindow` is not null. -/
  appStartWindow : Bool
  /-- The `isConnected` flag of the `node-ipc` socket. -/
  socketConnected : Bool
  /-- The `close` listener of the onboarding window (it calls `app.quit()`) is registered. -/
  onboardingCloseListener : Bool
  /-- The channels of `ipc` that have a listener registered by `main.js`. -/
  ipcListeners : List String
  /-- The calls made so far, oldest first. -/
  trace : List Action
  deriving DecidableEq, Repr

/-- Append one call to the trace. -/
def World.emit (w : World) (a : Action) : World := { w with trace := w.trace ++ [a] }

/-- What the surroundings of `main.js` answer during one run of the startup handler. -/
structure Env where
  /-- The first `socket.connect({path: ipcPath})` resolves. -/
  connect1 : Bool
  /-- The call `ethereumNode.start()` resolves. -/
  startOk : Bool
  /-- The `socket.connect` with the 120000 ms timeout resolves. -/
  connect2 : Bool
  /-- The value of `ethereumNode.isRunning` when the handler reads it. -/
  isRunning : Bool
  /-- The value of `ethereumNode.getNodeLog()` (`none`: undefined or null). -/
  nodeLog : Option JSString
  /-- The value of `ethereumNode.defaultNodeType`. -/
  defaultNodeType : JSString
  /-- The value of `ethereumNode.defaultNetwork`. -/
  defaultNetwork : JSString
  /-- The value of `process.platform`. -/
  platform : JSString
  /-- The value of `process.arch`. -/
  arch : JSString
  /-- The variable `ipcPath`. -/
  ipcPath : JSString
  /-- The translation function `global.i18n.t`. -/
  t : String → JSString

/-! ## Promises -/

/-- A promise chain run to settlement: from a world it yields the settled outcome
(`Except.ok`: resolved, `Except.error`: rejected) and the world after. -/
def Promise (α : Type) : Type := World → Except Err α × World

/-- A promise resolved with `a`. -/
def Promise.resolve {α : Type} (a : α) : Promise α := fun w => (Except.ok a, w)

/-- A promise rejected with `e` (`throw e` inside a handler). -/
def Promise.reject {α : Type} (e : Err) : Promise α := fun w => (Except.error e, w)

/-- The method `p.then(f)`: `f` runs when `p` resolves; a rejection passes through. -/
def Promise.then_ {α β : Type} (p : Promise α) (f : α → Promise β) : Promise β := fun w =>
  match p w with
  | (Except.ok a, w1) => f a w1
  | (Except.error e, w1) => (Except.error e, w1)

/-- The method `p.catch(f)`: `f` runs when `p` rejects; a resolution passes through. -/
def Promise.catch_ {α : Type} (p : Promise α) (f : Err → Promise α) : Promise α := fun w =>
  match p w with
  | (Except.ok a, w1) => (Except.ok a, w1)
  | (Except.error e, w1) => f e w1

instance : Monad Promise where
  pure := Promise.resolve
  bind := Promise.then_

/-- Record one call. -/
def act (a : Action) : Promise Unit := fun w => (Except.ok (), w.emit a)

/-- Read the world. -/
def getWorld : Promise World := fun w => (Except.ok w, w)

/-- Replace the world (the trace is part of it). -/
def modifyWorld (f : World → World) : Promise Unit := fun w => (Except.ok (), f w)

/-- Modelled from the spec: the `Sockets` module is not part of `main.js`.  Following the
contract of `connect` (spec 4.2), a successful attempt makes `isConnected` true and a failed
one leaves the connection disconnected.  Whether the attempt succeeds is an input. -/
def socketConnect (timeout : Option Nat) (ok : Bool) : Promise Unit := fun w =>
  let w1 := w.emit (Action.socketConnect timeout)
  if ok then (Except.ok (), { w1 with socketConnected := true })
  else (Except.error Err.connect, { w1 with socketConnected := false })

/-- The call `ethereumNode.start(...)`; whether it resolves is an input. -/
def ethereumNodeStart (args : Option (JSString × JSString)) (ok : Bool) : Promise Unit :=
  fun w =>
    let w1 := w.emit (Action.nodeStart args)
    if ok then (Except.ok (), w1) else (Except.error Err.spawn, w1)

/-- The call `ethereumNode.stop()`; whether it resolves is an input. -/
def ethereumNodeStop (ok : Bool) : Promise Unit := fun w =>
  let w1 := w.emit Action.nodeStop
  if ok then (Except.ok (), w1) else (Except.error Err.stop, w1)

/-- An unguarded `appStartWindow.webContents.send(...)`: it throws when the variable is null. -/
def sendUnguarded (channel key : String) (arg : Option JSString) : Promise Unit := fun w =>
  if w.appStartWindow then (Except.ok (), w.emit (Action.send channel key arg))
  else (Except.error Err.typeError, w)

/-- The guarded form `if (appStartWindow) { appStartWindow.webContents.send(...) }`. -/
def sendGuarded (channel key : String) (arg : Option JSString) : Promise Unit := fun w =>
  if w.appStartWindow then (Except.ok (), w.emit (Action.send channel key arg))
  else (Except.ok (), w)

/-! ## The startup handler (`main.js` lines 298-456) -/

/-- The constant `NODE_TYPE` (line 173). -/
def NODE_TYPE : JSString := lit "geth"

/-- The log excerpt of the error dialog (lines 340-346): `...` and the last 1000 code units
of a non-empty node log, the translated fallback text otherwise. -/
def logExcerpt (env : Env) : JSString :=
  match env.nodeLog with
  | some (c :: cs) => lit "..." ++ sliceLast 1000 (c :: cs)
  | _ => env.t "mist.errors.nodeStartup"

/-- The `detail` text of the error dialog (lines 349-352). -/
def dialogDetail (env : Env) : JSString :=
  lit "Node type: " ++ NODE_TYPE ++ lit "\n" ++
  lit "Network: " ++ env.defaultNetwork ++ lit "\n" ++
  lit "Platform: " ++ env.platform ++ lit " (Architecure " ++ env.arch ++ lit ")" ++
  lit "\n\n" ++ logExcerpt env

/-- The handler of the last `.catch` of the spawn path (lines 339-360). -/
def spawnFailureHandler (env : Env) (_err : Err) : Promise Unit := do
  act Action.getNodeLog
  act (Action.showMessageBox "error" (env.t "mist.errors.nodeConnect") (dialogDetail env))

/-- The handler of the `.catch` of the first connect (lines 304-361). -/
def connectFailureHandler (env : Env) (_err : Err) : Promise Unit := do
  act (Action.log "warn"
    (lit "Failed to connect to geth. Maybe it\x27s not running so let\x27s start our own...") [])
  if (← getWorld).appStartWindow then
    act (Action.log "debug" (lit "Tell UI we are going to start a node") [])
    act (Action.send "startScreenText" "mist.startScreen.startingNode" none)
  act (Action.log "info" (lit "Node type: " ++ env.defaultNodeType) [])
  act (Action.log "info" (lit "Network: " ++ env.defaultNetwork) [])
  Promise.catch_
    (Promise.then_
      (Promise.catch_ (ethereumNodeStart none env.startOk) (fun err => do
        act (Action.log "error" (lit "Failed to start node") [])
        sendGuarded "startScreenText" "mist.startScreen.nodeBinaryNotFound" none
        Promise.reject err))
      (fun _ =>
        Promise.catch_ (socketConnect (some 120000) env.connect2) (fun err => do
          act (Action.log "error" (lit "Failed to connect to node") [])
          sendGuarded "startScreenText" "mist.startScreen.nodeConnectionTimeout"
            (some env.ipcPath)
          Promise.reject err)))
    (spawnFailureHandler env)

/-- The handler of the final `.then` (lines 362-454), up to the call of `checkNodeSync`. -/
def afterConnectHandler (env : Env) (_u : Unit) : Promise Unit := do
  if !(← getWorld).socketConnected then
    act (Action.log "info"
      (lit "Either geth didn\x27t start or IPC socket failed to connect.") [])
    act Action.appQuit
  else
    act (Action.log "info" (lit "Connected via IPC to geth.") [])
    if env.isRunning then
      act Action.nodeOnData
      sendUnguarded "startScreenText" "mist.startScreen.startedNode" none
    else
      sendUnguarded "startScreenText" "mist.startScreen.runningNodeFound" none
    act Action.appMenu
    act Action.checkNodeSync

/-- The `did-finish-load` handler of the splash window (lines 298-456). -/
def didFinishLoad (env : Env) : Promise Unit :=
  Promise.then_
    (Promise.catch_ (socketConnect none env.connect1) (connectFailureHandler env))
    (afterConnectHandler env)

/-- The world when the splash window has finished loading: the `ready` handler has created
`appStartWindow` (line 258), `Sockets.get` hands out the `node-ipc` socket, nothing has been
registered on `ipc` by `main.js` yet. -/
def readyWorld : World :=
  { appStartWindow := true, socketConnected := false, onboardingCloseListener := false,
    ipcListeners := [], trace := [] }

/-- One run of the startup orchestration: the handler on the world left by `ready`. -/
def startup (env : Env) : Except Err Unit × World := didFinishLoad env readyWorld

/-! ## The orchestrator states of the specification -/

/-- The states of the startup orchestrator named by the specification (section 3). -/
inductive OrchestratorState where
  | Init | TryExistingConnection | SpawningNode | WaitingForReady
  | Connected | Onboarding | Failed
  deriving DecidableEq, Repr

/-- The state of the specification (section 4.4) that a call of the handler enters, if
any: the connect without timeout is `TryExistingConnection`, `ethereumNode.start` is
`SpawningNode`, the connect with a timeout is `WaitingForReady`, the point where the socket
is known to be connected (line 371) is `Connected`, the onboarding window is `Onboarding`,
and the error dialog is `Failed`. -/
def specStateOf : Action → Option OrchestratorState
  | Action.socketConnect none => some OrchestratorState.TryExistingConnection
  | Action.nodeStart none => some OrchestratorState.SpawningNode
  | Action.socketConnect (some _) => some OrchestratorState.WaitingForReady
  | Action.log level msg _ =>
      if level = "info" ∧ msg = lit "Connected via IPC to geth." then
        some OrchestratorState.Connected
      else none
  | Action.popupShow name =>
      if name = "onboardingScreen" then some OrchestratorState.Onboarding else none
  | Action.showMessageBox type _ _ =>
      if type = "error" then some OrchestratorState.Failed else none
  | _ => none

/-- The sequence of specification states a trace passes through, starting in `Init`. -/
def specStates (tr : List Action) : List OrchestratorState :=
  OrchestratorState.Init :: tr.filterMap specStateOf

/-- Is the action a call of `ethereumNode.start`? -/
def Action.isNodeStart : Action → Bool
  | Action.nodeStart _ => true
  | _ => false

/-- Is the action a call of `socket.connect`? -/
def Action.isSocketConnect : Action → Bool
  | Action.socketConnect _ => true
  | _ => false

/-- Is the action an error dialog? -/
def Action.isErrorDialog : Action → Bool
  | Action.showMessageBox type _ _ => type == "error"
  | _ => false

/-- Is the action the status `key` sent on the `startScreenText` channel? -/
def Action.isStatus (key : String) : Action → Bool
  | Action.send channel k _ => channel == "startScreenText" && k == key
  | _ => false

/-- A sample environment: a Linux host, a node of the default type on the main network,
with the given outcomes of the three asynchronous calls and the given node log. -/
def sampleEnv (connect1 startOk connect2 : Bool) (nodeLog : Option JSString) : Env where
  connect1 := connect1
  startOk := startOk
  connect2 := connect2
  isRunning := startOk
  nodeLog := nodeLog
  defaultNodeType := lit "geth"
  defaultNetwork := lit "main"
  platform := lit "linux"
  arch := lit "x64"
  ipcPath := lit "/tmp/geth.ipc"
  t := fun k => lit k

/-- The calls between the successful connect and the sync check (lines 371-391). -/
def connectedTail (isRunning : Bool) : List Action :=
  Action.log "info" (lit "Connected via IPC to geth.") [] ::
  (if isRunning then
    [Action.nodeOnData, Action.send "startScreenText" "mist.startScreen.startedNode" none]
   else [Action.send "startScreenText" "mist.startScreen.runningNodeFound" none]) ++
  [Action.appMenu, Action.checkNodeSync]

/-- The calls from the first connect to `ethereumNode.start()` (lines 303-315) when the
first connect fails and the splash window exists. -/
def spawnPrelude (env : Env) : List Action :=
  [Action.socketConnect none,
   Action.log "warn"
     (lit "Failed to connect to geth. Maybe it\x27s not running so let\x27s start our own...") [],
   Action.log "debug" (lit "Tell UI we are going to start a node") [],
   Action.send "startScreenText" "mist.startScreen.startingNode" none,
   Action.log "info" (lit "Node type: " ++ env.defaultNodeType) [],
   Action.log "info" (lit "Network: " ++ env.defaultNetwork) [],
   Action.nodeStart none]

/-- The calls of the failure path from `getNodeLog` on (lines 340-366). -/
def failureTail (env : Env) : List Action :=
  [Action.getNodeLog,
   Action.showMessageBox "error" (env.t "mist.errors.nodeConnect") (dialogDetail env),
   Action.log "info" (lit "Either geth didn\x27t start or IPC socket failed to connect.") [],
   Action.appQuit]

/-- The lines of the dialog detail that precede the log excerpt (lines 349-351). -/
def dialogHeader (env : Env) : JSString :=
  lit "Node type: " ++ NODE_TYPE ++ lit "\n" ++
  lit "Network: " ++ env.defaultNetwork ++ lit "\n" ++
  lit "Platform: " ++ env.platform ++ lit " (Architecure " ++ env.arch ++ lit ")" ++
  lit "\n\n"

/-- The dialog detail in the words of the specification: the header names the default node
type the node was started with, where the source has the constant `NODE_TYPE`. -/
def specDialogDetail (env : Env) : JSString :=
  lit "Node type: " ++ env.defaultNodeType ++ lit "\n" ++
  lit "Network: " ++ env.defaultNetwork ++ lit "\n" ++
  lit "Platform: " ++ env.platform ++ lit " (Architecure " ++ env.arch ++ lit ")" ++
  lit "\n\n" ++ logExcerpt env

/-- An environment whose default node type is `eth`: no node is listening, and the spawn
fails. -/
def ethEnv : Env :=
  { sampleEnv false false false none with defaultNodeType := lit "eth" }

/-! ## Onboarding (lines 405-452) -/

/-- Modelled from the spec: the `Sockets` module is not part of `main.js`.  Following the
contract of `destroy` (spec 4.2), the connection is disconnected afterwards. -/
def socketDestroy : Promise Unit := fun w =>
  (Except.ok (), { w.emit Action.socketDestroy with socketConnected := false })

/-- The function `startMainWindow` (lines 468-504), up to the loading of the interface;
`url` is `global.interfaceAppUrl`. -/
def startMainWindow (url : JSString) : Promise Unit := do
  act Action.nodeRemoveDataListener
  act (Action.log "info" (lit "Loading Interface at " ++ url) [])
  act Action.mainWindowLoad

/-- The first callback handed to `checkNodeSync` (lines 394-402): the splash screen has
finished. -/
def splashFinishedCallback (url : JSString) : Promise Unit := do
  sendGuarded "startScreenText" "mist.startScreen.startedNode" none
  socketDestroy
  startMainWindow url

/-- The second callback handed to `checkNodeSync` (lines 405-452): onboarding starts.  The
splash window is closed, the onboarding window is shown, and the two `ipc` listeners are
registered. -/
def onboardingCallback : Promise Unit := do
  if (← getWorld).appStartWindow then
    act Action.splashClose
  modifyWorld (fun w => { w with appStartWindow := false })
  act (Action.popupShow "onboardingScreen")
  modifyWorld (fun w => { w with onboardingCloseListener := true })
  modifyWorld (fun w => { w with ipcListeners := w.ipcListeners ++ ["onBoarding_changeNet"] })
  modifyWorld (fun w => { w with ipcListeners := w.ipcListeners ++ ["onBoarding_launchApp"] })

/-- What the node module answers during one network switch. -/
structure SwitchEnv where
  /-- The value of `ethereumNode.type`. -/
  nodeType : JSString
  /-- The call `ethereumNode.stop()` resolves. -/
  stopOk : Bool
  /-- The call `ethereumNode.start(newType, newNetwork)` resolves. -/
  startOk : Bool

/-- The network name chosen by the handler: `testnet ? test : main`, on the truthiness of
the flag. -/
def newNetwork (testnet : Bool) : JSString := if testnet then lit "test" else lit "main"

/-- The listener of `onBoarding_changeNet` (lines 418-434). -/
def onBoardingChangeNet (sw : SwitchEnv) (testnet : Bool) : Promise Unit :=
  Promise.catch_
    (Promise.then_ (ethereumNodeStop sw.stopOk) (fun _ =>
      Promise.then_ (ethereumNodeStart (some (sw.nodeType, newNetwork testnet)) sw.startOk)
        (fun _ => do
          act (Action.log "info" (lit "Changed node") [sw.nodeType, newNetwork testnet])
          act Action.appMenu)))
    (fun _ => act (Action.log "error" (lit "Error changing network") []))

/-- The listener of `onBoarding_launchApp` (lines 437-451). -/
def onBoardingLaunchApp (url : JSString) : Promise Unit := do
  socketDestroy
  modifyWorld (fun w => { w with onboardingCloseListener := false })
  act Action.onboardingClose
  act Action.loadingWindowShow
  modifyWorld (fun w =>
    { w with ipcListeners := w.ipcListeners.filter (fun c => c != "onBoarding_changeNet") })
  modifyWorld (fun w =>
    { w with ipcListeners := w.ipcListeners.filter (fun c => c != "onBoarding_launchApp") })
  startMainWindow url

/-- The messages of the onboarding window on `ipc`. -/
inductive IpcMessage where
  /-- The message `onBoarding_changeNet` with the truthiness of its flag; `sw` is what the
  node module answers while it is handled. -/
  | changeNet (testnet : Bool) (sw : SwitchEnv)
  /-- The message `onBoarding_launchApp`; `url` is `global.interfaceAppUrl`. -/
  | launchApp (url : JSString)

/-- Delivery of a message by `ipc`: the listener runs if one is registered on the channel
(`main.js` registers each of the two once, in `onboardingCallback`). -/
def ipcEmit : IpcMessage → Promise Unit
  | IpcMessage.changeNet testnet sw => fun w =>
      if "onBoarding_changeNet" ∈ w.ipcListeners then onBoardingChangeNet sw testnet w
      else (Except.ok (), w)
  | IpcMessage.launchApp url => fun w =>
      if "onBoarding_launchApp" ∈ w.ipcListeners then onBoardingLaunchApp url w
      else (Except.ok (), w)

/-- The calls of one handled network switch (lines 422-433). -/
def changeNetCalls (sw : SwitchEnv) (testnet : Bool) : List Action :=
  Action.nodeStop ::
  (if sw.stopOk then
    Action.nodeStart (some (sw.nodeType, newNetwork testnet)) ::
    (if sw.startOk then
      [Action.log "info" (lit "Changed node") [sw.nodeType, newNetwork testnet],
       Action.appMenu]
     else [Action.log "error" (lit "Error changing network") []])
   else [Action.log "error" (lit "Error changing network") []])

/-- The world in Onboarding of the sample run: no node was listening, the default node was
spawned and connected, and the sync check chose onboarding. -/
def onboardingWorld : World :=
  (onboardingCallback (startup (sampleEnv false true true none)).2).2

/-- A node of type `geth` with the given outcomes of stop and start. -/
def sampleSwitch (stopOk startOk : Bool) : SwitchEnv :=
  { nodeType := lit "geth", stopOk := stopOk, startOk := startOk }

/-! ## Shutdown (lines 138-167) -/

/-- The state of the shutdown code: the variable `killedSockets`, the entries of
`global.sockets`, the asynchronous operations started and not yet settled, and the trace. -/
structure QuitWorld where
  /-- The variable `killedSockets` (line 138). -/
  killedSockets : Bool
  /-- The values of `global.sockets || {}`: `none` for a falsy entry, `some id` for a socket
  with that `id`. -/
  globalSockets : List (Option JSString)
  /-- The calls of `Sockets.destroyAll()` whose promise has not settled yet. -/
  pendingDestroyAll : Nat
  /-- The 500 ms timers set and not fired yet. -/
  pendingTimers : Nat
  /-- The calls of `ethereumNode.stop()` whose promise has not settled yet. -/
  pendingStops : Nat
  /-- The calls made so far, oldest first. -/
  trace : List Action
  deriving DecidableEq, Repr

/-- Append one call to the trace. -/
def QuitWorld.emit (w : QuitWorld) (a : Action) : QuitWorld :=
  { w with trace := w.trace ++ [a] }

/-- What can happen to the shutdown code.  The `before-quit` event covers both a quit asked
for by the user and the one Electron emits when `app.quit()` is called. -/
inductive QuitEvent where
  /-- The application emits `before-quit`. -/
  | beforeQuit
  /-- A pending `Sockets.destroyAll()` resolves (`true`) or rejects (`false`). -/
  | destroyAllSettles (ok : Bool)
  /-- A pending 500 ms timer fires. -/
  | timerFires
  /-- A pending `ethereumNode.stop()` resolves (`true`) or rejects (`false`). -/
  | stopSettles (ok : Bool)
  deriving DecidableEq, Repr

/-- The loop over `global.sockets` (lines 152-157): every truthy entry is logged and
destroyed. -/
def closeSocketCalls : List (Option JSString) → List Action
  | [] => []
  | none :: rest => closeSocketCalls rest
  | some id :: rest =>
      Action.log "info" (lit "Closing socket") [id] :: Action.globalSocketDestroy id ::
        closeSocketCalls rest

/-- Is a `before-quit` event arriving in this state prevented (lines 141-143)? -/
def beforeQuitPrevented (w : QuitWorld) : Bool := !w.killedSockets

/-- The synchronous part of the `before-quit` handler (lines 140-167). -/
def onBeforeQuit (w : QuitWorld) : QuitWorld :=
  let w1 := if beforeQuitPrevented w then w.emit Action.preventDefault else w
  let w2 := { w1.emit Action.socketsDestroyAll with
    pendingDestroyAll := w1.pendingDestroyAll + 1 }
  let w3 := { w2 with trace := w2.trace ++ closeSocketCalls w2.globalSockets }
  { w3.emit (Action.setTimeout 500) with pendingTimers := w3.pendingTimers + 1 }

/-- The `.catch` on `Sockets.destroyAll()` (lines 147-149). -/
def onDestroyAllSettled (ok : Bool) (w : QuitWorld) : QuitWorld :=
  if ok then w else w.emit (Action.log "error" (lit "Error shutting down sockets") [])

/-- The timer callback (lines 160-166), up to the call of `ethereumNode.stop()`. -/
def onTimer (w : QuitWorld) : QuitWorld :=
  { ({ w with killedSockets := true }).emit Action.nodeStop with
    pendingStops := w.pendingStops + 1 }

/-- The `.then` on `ethereumNode.stop()` (lines 163-165): it has no rejection handler. -/
def onStopSettled (ok : Bool) (w : QuitWorld) : QuitWorld :=
  if ok then w.emit Action.appQuit else w

/-- One event.  A settlement with nothing pending of its kind cannot happen and is
ignored. -/
def quitStep (w : QuitWorld) : QuitEvent → QuitWorld
  | QuitEvent.beforeQuit => onBeforeQuit w
  | QuitEvent.destroyAllSettles ok =>
      if w.pendingDestroyAll = 0 then w
      else onDestroyAllSettled ok { w with pendingDestroyAll := w.pendingDestroyAll - 1 }
  | QuitEvent.timerFires =>
      if w.pendingTimers = 0 then w
      else onTimer { w with pendingTimers := w.pendingTimers - 1 }
  | QuitEvent.stopSettles ok =>
      if w.pendingStops = 0 then w
      else onStopSettled ok { w with pendingStops := w.pendingStops - 1 }

/-- The state when `main.js` has been loaded (line 138). -/
def quitInit (sockets : List (Option JSString)) : QuitWorld :=
  { killedSockets := false, globalSockets := sockets, pendingDestroyAll := 0,
    pendingTimers := 0, pendingStops := 0, trace := [] }

/-- The state after a sequence of events. -/
def quitRun (sockets : List (Option JSString)) (es : List QuitEvent) : QuitWorld :=
  es.foldl quitStep (quitInit sockets)

/-- Is the action a call of `log.error`? -/
def Action.isLogError : Action → Bool
  | Action.log level _ _ => level == "error"
  | _ => false

/-- The calls of one run of the `before-quit` handler in a state with the given flag. -/
def beforeQuitCalls (killed : Bool) (sockets : List (Option JSString)) : List Action :=
  (if killed then [] else [Action.preventDefault]) ++
  Action.socketsDestroyAll :: closeSocketCalls sockets ++ [Action.setTimeout 500]

/-! ## `logFunction` (lines 176-185) -/

/-- The class `[\r\n]`: carriage return and line feed. -/
def isNewline (c : Nat) : Bool := c == 13 || c == 10

/-- The line terminators of JavaScript, the code units `.` does not match: line feed,
carriage return, U+2028 and U+2029. -/
def isLineTerminator (c : Nat) : Bool := c == 10 || c == 13 || c == 8232 || c == 8233

/-- The class `[0-9]`. -/
def isDigit (c : Nat) : Bool := decide (48 ≤ c ∧ c ≤ 57)

/-- The method call `data.replace(/[\r\n]+/, \x27\x27)`: the leftmost match is the first
code unit of the class, the greedy `+` extends it over the whole run, and only this first
match is removed. -/
def removeFirstNewlines : JSString → JSString
  | [] => []
  | c :: cs => if isNewline c then cs.dropWhile isNewline else c :: removeFirstNewlines cs

/-- The test `/^\-*$/.test(data)`: from the start, `\-*` takes the leading dashes, and `$`
(no `m` flag) asks for the end of the string. -/
def onlyDashes (s : JSString) : Bool := (s.dropWhile (fun c => c == 45)).isEmpty

/-- Do `[0-9]` and `\]` match at index `k` and `k + 1`? -/
def digitBracketAt (s : JSString) (k : Nat) : Bool :=
  match s.drop k with
  | d :: b :: _ => isDigit d && b == 93
  | _ => false

/-- The number of code units the greedy `.*` takes first: up to the first line
terminator. -/
def dotStarMax (s : JSString) : Nat :=
  (s.takeWhile (fun c => !isLineTerminator c)).length

/-- Backtracking of `/^.*[0-9]\]/`: with `.*` on `k` code units, try `[0-9]\]`; on failure
give one code unit back.  The result is the end of the match. -/
def headerEndFrom (s : JSString) : Nat → Option Nat
  | 0 => if digitBracketAt s 0 then some 2 else none
  | k + 1 => if digitBracketAt s (k + 1) then some (k + 3) else headerEndFrom s k

/-- The method call `data.replace(/^.*[0-9]\]/, \x27\x27)`: the match, if any, starts at
index 0 (no `m` flag) and is removed. -/
def stripLogHeader (s : JSString) : JSString :=
  match headerEndFrom s (dotStarMax s) with
  | some e => s.drop e
  | none => s

/-- The function `logFunction` (lines 176-185); `data` is `data.toString()`. -/
def logFunction (data : JSString) : Promise Unit := do
  let data := removeFirstNewlines data
  act (Action.nodeLoggerTrace data)
  if (← getWorld).appStartWindow && !onlyDashes data && !data.isEmpty then
    act (Action.send "startScreenText" "logText" (some (stripLogHeader data)))

/-! ## Theorems -/

theorem startup_connect1_ok (env : Env) (h : env.connect1 = true) :
    (startup env).1 = Except.ok () ∧
    (startup env).2.trace = Action.socketConnect none :: connectedTail env.isRunning := by
  obtain ⟨c1, so, c2, ir, nl, dt, dn, pl, ar, ip, t⟩ := env
  simp only at h
  subst h
  cases ir <;> exact ⟨rfl, rfl⟩

/-- C1: when the first connect succeeds the run resolves, the states passed are
Init, TryExistingConnection, Connected, ethereumNode.start is never called, the only
connect is the first one, no dialog is shown, the application is not quit, and the run ends
with the call of the sync check. -/
theorem startup_existing_connection_wins (env : Env) (h : env.connect1 = true) :
    (startup env).1 = Except.ok () ∧
    specStates (startup env).2.trace =
      [OrchestratorState.Init, OrchestratorState.TryExistingConnection,
       OrchestratorState.Connected] ∧
    (∀ a ∈ (startup env).2.trace, a.isNodeStart = false) ∧
    (startup env).2.trace.filter Action.isSocketConnect = [Action.socketConnect none] ∧
    (∀ a ∈ (startup env).2.trace, a.isErrorDialog = false ∧ a ≠ Action.appQuit) ∧
    (startup env).2.trace =
      Action.socketConnect none :: connectedTail env.isRunning ∧
    (startup env).2.trace.getLast? = some Action.checkNodeSync := by
  obtain ⟨h1, h2⟩ := startup_connect1_ok env h
  rw [h1, h2]
  cases env.isRunning <;>
    exact ⟨rfl, by decide, by decide, by decide, by decide, rfl, by decide⟩

/-- Witness of C1 on the sample environment. -/
theorem startup_existing_connection_wins_witness :
    (sampleEnv true false false none).connect1 = true ∧
    specStates (startup (sampleEnv true false false none)).2.trace =
      [OrchestratorState.Init, OrchestratorState.TryExistingConnection,
       OrchestratorState.Connected] :=
  ⟨rfl, (startup_existing_connection_wins (sampleEnv true false false none) rfl).2.1⟩

theorem startup_spawn_ok (env : Env) (h1 : env.connect1 = false) (h2 : env.startOk = true)
    (h3 : env.connect2 = true) :
    (startup env).1 = Except.ok () ∧
    (startup env).2.trace =
      spawnPrelude env ++ Action.socketConnect (some 120000) :: connectedTail env.isRunning := by
  obtain ⟨c1, so, c2, ir, nl, dt, dn, pl, ar, ip, t⟩ := env
  simp only at h1 h2 h3
  subst h1 h2 h3
  cases ir <;> exact ⟨rfl, rfl⟩

theorem startup_ready_timeout (env : Env) (h1 : env.connect1 = false)
    (h2 : env.startOk = true) (h3 : env.connect2 = false) :
    (startup env).1 = Except.ok () ∧
    (startup env).2.socketConnected = false ∧
    (startup env).2.trace =
      spawnPrelude env ++
      [Action.socketConnect (some 120000),
       Action.log "error" (lit "Failed to connect to node") [],
       Action.send "startScreenText" "mist.startScreen.nodeConnectionTimeout"
         (some env.ipcPath)] ++ failureTail env := by
  obtain ⟨c1, so, c2, ir, nl, dt, dn, pl, ar, ip, t⟩ := env
  simp only at h1 h2 h3
  subst h1 h2 h3
  exact ⟨rfl, rfl, rfl⟩

theorem startup_spawn_failed (env : Env) (h1 : env.connect1 = false)
    (h2 : env.startOk = false) :
    (startup env).1 = Except.ok () ∧
    (startup env).2.socketConnected = false ∧
    (startup env).2.trace =
      spawnPrelude env ++
      [Action.log "error" (lit "Failed to start node") [],
       Action.send "startScreenText" "mist.startScreen.nodeBinaryNotFound" none] ++
      failureTail env := by
  obtain ⟨c1, so, c2, ir, nl, dt, dn, pl, ar, ip, t⟩ := env
  simp only at h1 h2
  subst h1 h2
  exact ⟨rfl, rfl, rfl⟩

theorem lit_append_ne (a b : String) (x : JSString)
    (h : (lit a).head? ≠ (lit b).head?) (ha : lit a ≠ []) : lit a ++ x ≠ lit b := by
  intro e
  apply h
  rw [← e]
  cases hl : lit a with
  | nil => exact absurd hl ha
  | cons c cs => rfl

theorem specStates_spawnPrelude (env : Env) :
    (spawnPrelude env).filterMap specStateOf =
      [OrchestratorState.TryExistingConnection, OrchestratorState.SpawningNode] := by
  have e1 : lit "Node type: " ++ env.defaultNodeType ≠ lit "Connected via IPC to geth." :=
    lit_append_ne _ _ _ (by decide) (by decide)
  have e2 : lit "Network: " ++ env.defaultNetwork ≠ lit "Connected via IPC to geth." :=
    lit_append_ne _ _ _ (by decide) (by decide)
  simp [spawnPrelude, specStateOf, e1, e2]

/-- C2: when the first connect fails, the spawn succeeds and the connect with the timeout
succeeds, the states passed are Init, TryExistingConnection, SpawningNode, WaitingForReady,
Connected; start is called once, without arguments (default type and network); the two
connects are the one without timeout and the one with 120000 ms; no error dialog is shown,
the application is not quit, and the run ends with the call of the sync check. -/
theorem startup_spawn_then_connected (env : Env) (h1 : env.connect1 = false)
    (h2 : env.startOk = true) (h3 : env.connect2 = true) :
    (startup env).1 = Except.ok () ∧
    specStates (startup env).2.trace =
      [OrchestratorState.Init, OrchestratorState.TryExistingConnection,
       OrchestratorState.SpawningNode, OrchestratorState.WaitingForReady,
       OrchestratorState.Connected] ∧
    (startup env).2.trace.filter Action.isNodeStart = [Action.nodeStart none] ∧
    (startup env).2.trace.filter Action.isSocketConnect =
      [Action.socketConnect none, Action.socketConnect (some 120000)] ∧
    (∀ a ∈ (startup env).2.trace, a.isErrorDialog = false ∧ a ≠ Action.appQuit) ∧
    (startup env).2.trace =
      spawnPrelude env ++ Action.socketConnect (some 120000) :: connectedTail env.isRunning ∧
    (startup env).2.trace.getLast? = some Action.checkNodeSync := by
  obtain ⟨e1, e2⟩ := startup_spawn_ok env h1 h2 h3
  rw [e1, e2]
  refine ⟨rfl, ?_, ?_, ?_, ?_, rfl, ?_⟩
  · rw [specStates, List.filterMap_append, specStates_spawnPrelude, List.filterMap_cons]
    cases env.isRunning <;> decide
  · cases env.isRunning <;>
      simp [spawnPrelude, connectedTail, Action.isNodeStart, List.filter_cons]
  · cases env.isRunning <;>
      simp [spawnPrelude, connectedTail, Action.isSocketConnect, List.filter_cons]
  · cases env.isRunning <;>
      simp [spawnPrelude, connectedTail, Action.isErrorDialog]
  · cases env.isRunning <;> simp [spawnPrelude, connectedTail]

/-- Witness of C2 on the sample environment. -/
theorem startup_spawn_then_connected_witness :
    (sampleEnv false true true none).connect1 = false ∧
    (sampleEnv false true true none).startOk = true ∧
    (sampleEnv false true true none).connect2 = true ∧
    (startup (sampleEnv false true true none)).2.trace.filter Action.isSocketConnect =
      [Action.socketConnect none, Action.socketConnect (some 120000)] :=
  ⟨rfl, rfl, rfl,
    (startup_spawn_then_connected (sampleEnv false true true none) rfl rfl rfl).2.2.2.1⟩

theorem dialogDetail_eq (env : Env) : dialogDetail env = dialogHeader env ++ logExcerpt env := by
  simp [dialogDetail, dialogHeader, List.append_assoc]

theorem specStates_failureTail (env : Env) :
    (failureTail env).filterMap specStateOf = [OrchestratorState.Failed] := by
  have e1 : lit "Either geth didn\x27t start or IPC socket failed to connect." ≠
      lit "Connected via IPC to geth." := by decide
  simp [failureTail, specStateOf, e1]

theorem sliceLast_eq (n : Nat) (s : JSString) :
    sliceLast n s = s.drop (s.length - min n s.length) := by
  have e : s.length - n = s.length - min n s.length := by omega
  rw [sliceLast, e]

theorem logExcerpt_nonempty (env : Env) (L : JSString) (h : env.nodeLog = some L)
    (hL : L ≠ []) :
    logExcerpt env = lit "..." ++ L.drop (L.length - min 1000 L.length) := by
  cases L with
  | nil => exact absurd rfl hL
  | cons c cs =>
    rw [← sliceLast_eq]
    simp only [logExcerpt, h]

theorem logExcerpt_empty (env : Env) (h : env.nodeLog = none ∨ env.nodeLog = some []) :
    logExcerpt env = env.t "mist.errors.nodeStartup" := by
  rcases h with h | h <;> simp [logExcerpt, h]

/-- C3: when the first connect fails, the spawn succeeds and the connect with the 120000 ms
timeout fails, the states passed end in Failed; the run shows exactly one error dialog,
whose detail ends with `...` and the last min(1000, |L|) code units of a non-empty node log
L, and with the translated fallback text for an empty or missing log; the
nodeConnectionTimeout status is sent, the sync check is not called and the last call is
`app.quit()`. -/
theorem startup_ready_timeout_fails (env : Env) (h1 : env.connect1 = false)
    (h2 : env.startOk = true) (h3 : env.connect2 = false) :
    (startup env).1 = Except.ok () ∧
    specStates (startup env).2.trace =
      [OrchestratorState.Init, OrchestratorState.TryExistingConnection,
       OrchestratorState.SpawningNode, OrchestratorState.WaitingForReady,
       OrchestratorState.Failed] ∧
    (startup env).2.trace.filter Action.isSocketConnect =
      [Action.socketConnect none, Action.socketConnect (some 120000)] ∧
    (startup env).2.trace.filter Action.isErrorDialog =
      [Action.showMessageBox "error" (env.t "mist.errors.nodeConnect") (dialogDetail env)] ∧
    (∀ L : JSString, env.nodeLog = some L → L ≠ [] →
      (L.drop (L.length - min 1000 L.length)).length = min 1000 L.length ∧
      L.drop (L.length - min 1000 L.length) <:+ L ∧
      dialogDetail env =
        dialogHeader env ++ (lit "..." ++ L.drop (L.length - min 1000 L.length))) ∧
    (env.nodeLog = none ∨ env.nodeLog = some [] →
      dialogDetail env = dialogHeader env ++ env.t "mist.errors.nodeStartup") ∧
    Action.send "startScreenText" "mist.startScreen.nodeConnectionTimeout"
      (some env.ipcPath) ∈ (startup env).2.trace ∧
    Action.checkNodeSync ∉ (startup env).2.trace ∧
    (startup env).2.trace.getLast? = some Action.appQuit := by
  obtain ⟨e1, _, e3⟩ := startup_ready_timeout env h1 h2 h3
  rw [e1, e3]
  refine ⟨rfl, ?_, ?_, ?_, ?_, ?_, ?_, ?_, ?_⟩
  · have e : lit "Failed to connect to node" ≠ lit "Connected via IPC to geth." := by decide
    rw [specStates, List.filterMap_append, List.filterMap_append, specStates_spawnPrelude,
      specStates_failureTail]
    simp [specStateOf, e]
  · simp [spawnPrelude, failureTail, Action.isSocketConnect, List.filter_cons]
  · simp [spawnPrelude, failureTail, Action.isErrorDialog, List.filter_cons]
  · intro L hL hne
    refine ⟨?_, List.drop_suffix _ _, ?_⟩
    · rw [List.length_drop]
      omega
    · rw [dialogDetail_eq, logExcerpt_nonempty env L hL hne]
  · intro h
    rw [dialogDetail_eq, logExcerpt_empty env h]
  · simp [spawnPrelude, failureTail]
  · simp [spawnPrelude, failureTail]
  · simp [spawnPrelude, failureTail]

/-- Witness of C3 on the sample environment, with the node log `abc`. -/
theorem startup_ready_timeout_fails_witness :
    (sampleEnv false true false (some (lit "abc"))).connect1 = false ∧
    (sampleEnv false true false (some (lit "abc"))).startOk = true ∧
    (sampleEnv false true false (some (lit "abc"))).connect2 = false ∧
    (startup (sampleEnv false true false (some (lit "abc")))).2.trace.getLast? =
      some Action.appQuit :=
  ⟨rfl, rfl, rfl,
    (startup_ready_timeout_fails (sampleEnv false true false (some (lit "abc")))
      rfl rfl rfl).2.2.2.2.2.2.2.2⟩

/-- C4: when the first connect fails and the spawn fails, the states passed are Init,
TryExistingConnection, SpawningNode, Failed; the nodeBinaryNotFound status is sent, the only
connect is the first one, the nodeConnectionTimeout status is never sent, exactly one error
dialog is shown, the socket is not connected, the sync check is not called and the last
call is `app.quit()`. -/
theorem startup_spawn_fails (env : Env) (h1 : env.connect1 = false)
    (h2 : env.startOk = false) :
    (startup env).1 = Except.ok () ∧
    specStates (startup env).2.trace =
      [OrchestratorState.Init, OrchestratorState.TryExistingConnection,
       OrchestratorState.SpawningNode, OrchestratorState.Failed] ∧
    Action.send "startScreenText" "mist.startScreen.nodeBinaryNotFound" none ∈
      (startup env).2.trace ∧
    (startup env).2.trace.filter Action.isSocketConnect = [Action.socketConnect none] ∧
    (∀ a ∈ (startup env).2.trace,
      a.isStatus "mist.startScreen.nodeConnectionTimeout" = false) ∧
    (startup env).2.trace.filter Action.isErrorDialog =
      [Action.showMessageBox "error" (env.t "mist.errors.nodeConnect") (dialogDetail env)] ∧
    (startup env).2.socketConnected = false ∧
    Action.checkNodeSync ∉ (startup env).2.trace ∧
    (startup env).2.trace.getLast? = some Action.appQuit := by
  obtain ⟨e1, e2, e3⟩ := startup_spawn_failed env h1 h2
  rw [e1, e2, e3]
  refine ⟨rfl, ?_, ?_, ?_, ?_, ?_, rfl, ?_, ?_⟩
  · have e : lit "Failed to start node" ≠ lit "Connected via IPC to geth." := by decide
    rw [specStates, List.filterMap_append, List.filterMap_append, specStates_spawnPrelude,
      specStates_failureTail]
    simp [specStateOf, e]
  · simp [spawnPrelude, failureTail]
  · simp [spawnPrelude, failureTail, Action.isSocketConnect, List.filter_cons]
  · simp [spawnPrelude, failureTail, Action.isStatus]
  · simp [spawnPrelude, failureTail, Action.isErrorDialog, List.filter_cons]
  · simp [spawnPrelude, failureTail]
  · simp [spawnPrelude, failureTail]

/-- Witness of C4 on the sample environment. -/
theorem startup_spawn_fails_witness :
    (sampleEnv false false false none).connect1 = false ∧
    (sampleEnv false false false none).startOk = false ∧
    (startup (sampleEnv false false false none)).2.trace.filter Action.isSocketConnect =
      [Action.socketConnect none] :=
  ⟨rfl, rfl, (startup_spawn_fails (sampleEnv false false false none) rfl rfl).2.2.2.1⟩

/-- C5: with the default node type `eth` and a failing spawn, the handler logs
`Node type: eth` before calling `ethereumNode.start()`, yet the detail of the error dialog
starts with `Node type: geth`, the constant `NODE_TYPE`, and so differs from the detail
that names the default node type. -/
theorem dialog_names_constant_node_type :
    ethEnv.defaultNodeType = lit "eth" ∧
    Action.log "info" (lit "Node type: eth") [] ∈ (startup ethEnv).2.trace ∧
    (startup ethEnv).2.trace.filter Action.isErrorDialog =
      [Action.showMessageBox "error" (lit "mist.errors.nodeConnect")
        (lit ("Node type: geth\nNetwork: main\nPlatform: linux (Architecure x64)\n\n" ++
          "mist.errors.nodeStartup"))] ∧
    specDialogDetail ethEnv =
      lit ("Node type: eth\nNetwork: main\nPlatform: linux (Architecure x64)\n\n" ++
        "mist.errors.nodeStartup") ∧
    dialogDetail ethEnv ≠ specDialogDetail ethEnv := by
  refine ⟨rfl, by decide, by decide, by decide, by decide⟩

theorem ipcEmit_changeNet (w : World) (testnet : Bool) (sw : SwitchEnv)
    (h : "onBoarding_changeNet" ∈ w.ipcListeners) :
    ipcEmit (IpcMessage.changeNet testnet sw) w =
      (Except.ok (), { w with trace := w.trace ++ changeNetCalls sw testnet }) := by
  obtain ⟨nt, so, sa⟩ := sw
  simp only [ipcEmit, h, if_true]
  cases so <;> cases sa <;>
    simp [onBoardingChangeNet, Promise.catch_, Promise.then_, ethereumNodeStop,
      ethereumNodeStart, act, World.emit, changeNetCalls, bind]

theorem changeNetCalls_specStates (sw : SwitchEnv) (testnet : Bool) :
    (changeNetCalls sw testnet).filterMap specStateOf = [] := by
  obtain ⟨nt, so, sa⟩ := sw
  have e : lit "Changed node" ≠ lit "Connected via IPC to geth." := by decide
  cases so <;> cases sa <;> simp [changeNetCalls, specStateOf, e]

/-- C6 as stated fails: in the onboarding world of the sample run, a switch to the test
network whose stop and start both resolve makes the calls stop, start(geth, test), the log
line and `appMenu()`, and no `socket.connect`: the connects of the whole run are still the
two made at startup, and the socket state is untouched. -/
theorem changeNet_makes_no_connect :
    "onBoarding_changeNet" ∈ onboardingWorld.ipcListeners ∧
    (ipcEmit (IpcMessage.changeNet true (sampleSwitch true true)) onboardingWorld).2.trace =
      onboardingWorld.trace ++
        [Action.nodeStop, Action.nodeStart (some (lit "geth", lit "test")),
         Action.log "info" (lit "Changed node") [lit "geth", lit "test"], Action.appMenu] ∧
    (ipcEmit (IpcMessage.changeNet true (sampleSwitch true true))
        onboardingWorld).2.trace.filter Action.isSocketConnect =
      [Action.socketConnect none, Action.socketConnect (some 120000)] ∧
    onboardingWorld.trace.filter Action.isSocketConnect =
      [Action.socketConnect none, Action.socketConnect (some 120000)] ∧
    ¬ (∃ a ∈ (ipcEmit (IpcMessage.changeNet true (sampleSwitch true true))
        onboardingWorld).2.trace.drop onboardingWorld.trace.length,
      a.isSocketConnect = true) := by
  refine ⟨by decide, by decide, by decide, by decide, by decide⟩

/-- C6, amended: for every switch request received while the listener is registered,
`ethereumNode.stop()` is called first; when it resolves, `ethereumNode.start` is called
once, with the current node type and the new network (`test` for a truthy flag, `main`
otherwise); when stop rejects, start is not called; when start resolves too, the change is
logged and `appMenu()` is called; the handler never calls `socket.connect` and leaves the
socket state as it was. -/
theorem changeNet_restarts_node (w : World) (testnet : Bool) (sw : SwitchEnv)
    (h : "onBoarding_changeNet" ∈ w.ipcListeners) :
    (ipcEmit (IpcMessage.changeNet testnet sw) w).1 = Except.ok () ∧
    (ipcEmit (IpcMessage.changeNet testnet sw) w).2.trace =
      w.trace ++ changeNetCalls sw testnet ∧
    (changeNetCalls sw testnet).head? = some Action.nodeStop ∧
    (sw.stopOk = true →
      [Action.nodeStop, Action.nodeStart (some (sw.nodeType, newNetwork testnet))] <+:
        changeNetCalls sw testnet ∧
      (changeNetCalls sw testnet).filter Action.isNodeStart =
        [Action.nodeStart (some (sw.nodeType, newNetwork testnet))]) ∧
    (sw.stopOk = false → ∀ a ∈ changeNetCalls sw testnet, a.isNodeStart = false) ∧
    (sw.stopOk = true → sw.startOk = true →
      changeNetCalls sw testnet =
        [Action.nodeStop, Action.nodeStart (some (sw.nodeType, newNetwork testnet)),
         Action.log "info" (lit "Changed node") [sw.nodeType, newNetwork testnet],
         Action.appMenu]) ∧
    newNetwork testnet = (if testnet = true then lit "test" else lit "main") ∧
    (∀ a ∈ changeNetCalls sw testnet, a.isSocketConnect = false) ∧
    (ipcEmit (IpcMessage.changeNet testnet sw) w).2.socketConnected = w.socketConnected := by
  rw [ipcEmit_changeNet w testnet sw h]
  obtain ⟨nt, so, sa⟩ := sw
  refine ⟨rfl, rfl, rfl, ?_, ?_, ?_, rfl, ?_, rfl⟩
  · rintro rfl
    cases sa <;>
      simp [changeNetCalls, Action.isNodeStart, List.filter_cons, List.prefix_cons_inj]
  · rintro rfl
    simp [changeNetCalls, Action.isNodeStart]
  · rintro rfl rfl
    rfl
  · cases so <;> cases sa <;> simp [changeNetCalls, Action.isSocketConnect]

/-- Witness of C6 (amended) in the onboarding world of the sample run. -/
theorem changeNet_restarts_node_witness :
    "onBoarding_changeNet" ∈ onboardingWorld.ipcListeners ∧
    (ipcEmit (IpcMessage.changeNet false (sampleSwitch true true)) onboardingWorld).2.trace =
      onboardingWorld.trace ++ changeNetCalls (sampleSwitch true true) false :=
  ⟨by decide,
    (changeNet_restarts_node onboardingWorld false (sampleSwitch true true) (by decide)).2.1⟩

/-- C7: when stop or start fails during a network switch, the error is logged and
swallowed (the chain resolves), `app.quit()` is not called, no dialog is shown, the states
passed stay what they were (no Failed is entered), the listeners on `ipc` and on the
onboarding window stay registered, and every later switch request is handled again. -/
theorem changeNet_failure_not_fatal (w : World) (testnet : Bool) (sw : SwitchEnv)
    (h : "onBoarding_changeNet" ∈ w.ipcListeners)
    (hf : sw.stopOk = false ∨ sw.startOk = false) :
    (ipcEmit (IpcMessage.changeNet testnet sw) w).1 = Except.ok () ∧
    (ipcEmit (IpcMessage.changeNet testnet sw) w).2.trace =
      w.trace ++ changeNetCalls sw testnet ∧
    (changeNetCalls sw testnet).getLast? =
      some (Action.log "error" (lit "Error changing network") []) ∧
    (∀ a ∈ changeNetCalls sw testnet,
      a ≠ Action.appQuit ∧ a.isErrorDialog = false ∧ a ≠ Action.appMenu) ∧
    specStates (ipcEmit (IpcMessage.changeNet testnet sw) w).2.trace = specStates w.trace ∧
    (ipcEmit (IpcMessage.changeNet testnet sw) w).2.ipcListeners = w.ipcListeners ∧
    (ipcEmit (IpcMessage.changeNet testnet sw) w).2.onboardingCloseListener =
      w.onboardingCloseListener ∧
    (∀ (testnet2 : Bool) (sw2 : SwitchEnv),
      (ipcEmit (IpcMessage.changeNet testnet2 sw2)
          (ipcEmit (IpcMessage.changeNet testnet sw) w).2).2.trace =
        (w.trace ++ changeNetCalls sw testnet) ++ changeNetCalls sw2 testnet2) := by
  rw [ipcEmit_changeNet w testnet sw h]
  refine ⟨rfl, rfl, ?_, ?_, ?_, rfl, rfl, ?_⟩
  · obtain ⟨nt, so, sa⟩ := sw
    rcases hf with hf | hf <;> simp only at hf <;> subst hf
    · simp [changeNetCalls]
    · cases so <;> simp [changeNetCalls]
  · obtain ⟨nt, so, sa⟩ := sw
    rcases hf with hf | hf <;> simp only at hf <;> subst hf
    · simp [changeNetCalls, Action.isErrorDialog]
    · cases so <;> simp [changeNetCalls, Action.isErrorDialog]
  · simp only [specStates, List.filterMap_append, changeNetCalls_specStates,
      List.append_nil]
  · intro testnet2 sw2
    exact congrArg (fun r => r.2.trace)
      (ipcEmit_changeNet { w with trace := w.trace ++ changeNetCalls sw testnet }
        testnet2 sw2 h)

/-- Witness of C7 in the onboarding world of the sample run: the stop fails. -/
theorem changeNet_failure_not_fatal_witness :
    "onBoarding_changeNet" ∈ onboardingWorld.ipcListeners ∧
    ((sampleSwitch false true).stopOk = false ∨ (sampleSwitch false true).startOk = false) ∧
    specStates (ipcEmit (IpcMessage.changeNet true (sampleSwitch false true))
        onboardingWorld).2.trace = specStates onboardingWorld.trace ∧
    specStates onboardingWorld.trace =
      [OrchestratorState.Init, OrchestratorState.TryExistingConnection,
       OrchestratorState.SpawningNode, OrchestratorState.WaitingForReady,
       OrchestratorState.Connected, OrchestratorState.Onboarding] :=
  ⟨by decide, Or.inl rfl,
    (changeNet_failure_not_fatal onboardingWorld true (sampleSwitch false true) (by decide)
      (Or.inl rfl)).2.2.2.2.1, by decide⟩

theorem closeSocketCalls_no_quit (l : List (Option JSString)) :
    Action.appQuit ∉ closeSocketCalls l := by
  induction l with
  | nil => simp [closeSocketCalls]
  | cons s rest ih =>
    cases s with
    | none => simpa [closeSocketCalls] using ih
    | some id => simpa [closeSocketCalls] using ih

theorem quitRun_snoc (sockets : List (Option JSString)) (es : List QuitEvent)
    (e : QuitEvent) : quitRun sockets (es ++ [e]) = quitStep (quitRun sockets es) e := by
  simp [quitRun, List.foldl_append]

theorem onBeforeQuit_fields (w : QuitWorld) :
    (onBeforeQuit w).killedSockets = w.killedSockets ∧
    (onBeforeQuit w).pendingStops = w.pendingStops ∧
    (onBeforeQuit w).pendingTimers = w.pendingTimers + 1 ∧
    (onBeforeQuit w).pendingDestroyAll = w.pendingDestroyAll + 1 ∧
    (onBeforeQuit w).globalSockets = w.globalSockets ∧
    (onBeforeQuit w).trace = w.trace ++ beforeQuitCalls w.killedSockets w.globalSockets := by
  cases h : w.killedSockets <;>
    simp [onBeforeQuit, QuitWorld.emit, beforeQuitPrevented, beforeQuitCalls, h]

theorem beforeQuitCalls_no_quit (killed : Bool) (sockets : List (Option JSString)) :
    Action.appQuit ∉ beforeQuitCalls killed sockets := by
  have hn := closeSocketCalls_no_quit sockets
  cases killed <;> simp [beforeQuitCalls, hn]

/-- The invariant of the shutdown code: a timer is pending only after a `before-quit`, the
flag is set and a stop is pending only after a timer has fired, and `app.quit()` is called
only after a stop has resolved. -/
theorem quitRun_invariant (sockets : List (Option JSString)) (es : List QuitEvent) :
    (0 < (quitRun sockets es).pendingTimers → List.Sublist [QuitEvent.beforeQuit] es) ∧
    ((quitRun sockets es).killedSockets = true →
      List.Sublist [QuitEvent.beforeQuit, QuitEvent.timerFires] es) ∧
    (0 < (quitRun sockets es).pendingStops →
      List.Sublist [QuitEvent.beforeQuit, QuitEvent.timerFires] es) ∧
    (Action.appQuit ∈ (quitRun sockets es).trace →
      List.Sublist
        [QuitEvent.beforeQuit, QuitEvent.timerFires, QuitEvent.stopSettles true] es) := by
  induction es using List.reverseRecOn with
  | nil => simp [quitRun, quitInit]
  | append_singleton es e ih =>
    obtain ⟨ia, ib, ic, id⟩ := ih
    rw [quitRun_snoc]
    have up : ∀ {l : List QuitEvent}, List.Sublist l es → List.Sublist l (es ++ [e]) :=
      fun hl => hl.trans (List.sublist_append_left es [e])
    have same : quitStep (quitRun sockets es) e = quitRun sockets es →
        (0 < (quitStep (quitRun sockets es) e).pendingTimers →
          List.Sublist [QuitEvent.beforeQuit] (es ++ [e])) ∧
        ((quitStep (quitRun sockets es) e).killedSockets = true →
          List.Sublist [QuitEvent.beforeQuit, QuitEvent.timerFires] (es ++ [e])) ∧
        (0 < (quitStep (quitRun sockets es) e).pendingStops →
          List.Sublist [QuitEvent.beforeQuit, QuitEvent.timerFires] (es ++ [e])) ∧
        (Action.appQuit ∈ (quitStep (quitRun sockets es) e).trace →
          List.Sublist
            [QuitEvent.beforeQuit, QuitEvent.timerFires, QuitEvent.stopSettles true]
            (es ++ [e])) := by
      intro hs
      rw [hs]
      exact ⟨fun h => up (ia h), fun h => up (ib h), fun h => up (ic h), fun h => up (id h)⟩
    cases e with
    | beforeQuit =>
      obtain ⟨f1, f2, _, _, _, f6⟩ := onBeforeQuit_fields (quitRun sockets es)
      simp only [quitStep]
      rw [f1, f2, f6]
      refine ⟨fun _ => List.sublist_append_right es _, fun hk => up (ib hk),
        fun hp => up (ic hp), fun hq => up (id ?_)⟩
      rcases List.mem_append.mp hq with hq | hq
      · exact hq
      · exact absurd hq (beforeQuitCalls_no_quit _ _)
    | destroyAllSettles ok =>
      by_cases h0 : (quitRun sockets es).pendingDestroyAll = 0
      · exact same (by simp [quitStep, h0])
      · cases ok <;>
          simp only [quitStep, h0, if_false, onDestroyAllSettled, QuitWorld.emit] <;>
          refine ⟨fun h => up (ia h), fun h => up (ib h), fun h => up (ic h),
            fun h => up (id ?_)⟩ <;> simpa using h
    | timerFires =>
      by_cases h0 : (quitRun sockets es).pendingTimers = 0
      · exact same (by simp [quitStep, h0])
      · have hb : List.Sublist [QuitEvent.beforeQuit] es := ia (Nat.pos_of_ne_zero h0)
        have hbt : List.Sublist [QuitEvent.beforeQuit, QuitEvent.timerFires]
            (es ++ [QuitEvent.timerFires]) := hb.append (List.Sublist.refl _)
        simp only [quitStep, h0, if_false, onTimer, QuitWorld.emit]
        refine ⟨fun h => up (ia ?_), fun _ => hbt, fun _ => hbt, fun h => up (id ?_)⟩
        · simp only at h
          omega
        · simpa using h
    | stopSettles ok =>
      by_cases h0 : (quitRun sockets es).pendingStops = 0
      · exact same (by simp [quitStep, h0])
      · have hbt : List.Sublist [QuitEvent.beforeQuit, QuitEvent.timerFires] es :=
          ic (Nat.pos_of_ne_zero h0)
        have hbts : List.Sublist
            [QuitEvent.beforeQuit, QuitEvent.timerFires, QuitEvent.stopSettles true]
            (es ++ [QuitEvent.stopSettles true]) := hbt.append (List.Sublist.refl _)
        cases ok
        · simp only [quitStep, h0, if_false, onStopSettled]
          refine ⟨fun h => up (ia h), fun h => up (ib h), fun h => up (ic ?_),
            fun h => up (id h)⟩
          simp only at h
          omega
        · simp only [quitStep, h0, if_false, onStopSettled, QuitWorld.emit]
          refine ⟨fun h => up (ia h), fun h => up (ib h), fun h => up (ic ?_),
            fun _ => hbts⟩
          simp only at h
          omega

/-- C8 as stated fails: after one `before-quit` and its 500 ms timer, a `before-quit`
arriving now is not prevented, although the `Sockets.destroyAll()` promise has not settled
and `ethereumNode.stop()`, just called, has not resolved; the second handler run makes no
`preventDefault` call. -/
theorem beforeQuit_let_through_before_teardown :
    ¬ (beforeQuitPrevented (quitRun [] [QuitEvent.beforeQuit, QuitEvent.timerFires]) =
        false →
      (quitRun [] [QuitEvent.beforeQuit, QuitEvent.timerFires]).pendingDestroyAll = 0 ∧
      (quitRun [] [QuitEvent.beforeQuit, QuitEvent.timerFires]).pendingStops = 0 ∧
      Action.appQuit ∈ (quitRun [] [QuitEvent.beforeQuit, QuitEvent.timerFires]).trace) ∧
    beforeQuitPrevented (quitRun [] [QuitEvent.beforeQuit, QuitEvent.timerFires]) = false ∧
    (quitRun [] [QuitEvent.beforeQuit, QuitEvent.timerFires]).pendingDestroyAll = 1 ∧
    (quitRun [] [QuitEvent.beforeQuit, QuitEvent.timerFires]).pendingStops = 1 ∧
    (quitRun [] [QuitEvent.beforeQuit, QuitEvent.timerFires]).trace =
      [Action.preventDefault, Action.socketsDestroyAll, Action.setTimeout 500,
       Action.nodeStop] ∧
    (quitRun [] [QuitEvent.beforeQuit, QuitEvent.timerFires, QuitEvent.beforeQuit]).trace =
      [Action.preventDefault, Action.socketsDestroyAll, Action.setTimeout 500,
       Action.nodeStop, Action.socketsDestroyAll, Action.setTimeout 500] := by
  refine ⟨by decide, by decide, by decide, by decide, by decide, by decide⟩

/-- C8, amended: for every sequence of events, a `before-quit` is let through only when an
earlier `before-quit` has been followed by the firing of a 500 ms timer, so every
`before-quit` arriving before any timer has fired is prevented; the handler calls
`app.quit()` only after a `before-quit`, a timer and the resolution of
`ethereumNode.stop()`, in this order; and every run of the handler calls
`Sockets.destroyAll()` and sets a timer without waiting for the promise to settle. -/
theorem beforeQuit_prevented_until_timer (sockets : List (Option JSString))
    (es : List QuitEvent) :
    (beforeQuitPrevented (quitRun sockets es) = false →
      List.Sublist [QuitEvent.beforeQuit, QuitEvent.timerFires] es) ∧
    (QuitEvent.timerFires ∉ es → beforeQuitPrevented (quitRun sockets es) = true) ∧
    (Action.appQuit ∈ (quitRun sockets es).trace →
      List.Sublist
        [QuitEvent.beforeQuit, QuitEvent.timerFires, QuitEvent.stopSettles true] es) ∧
    (quitRun sockets (es ++ [QuitEvent.beforeQuit])).trace =
      (quitRun sockets es).trace ++
        ((if beforeQuitPrevented (quitRun sockets es) then [Action.preventDefault] else []) ++
          Action.socketsDestroyAll :: closeSocketCalls (quitRun sockets es).globalSockets ++
          [Action.setTimeout 500]) := by
  obtain ⟨_, ib, _, id⟩ := quitRun_invariant sockets es
  have h1 : beforeQuitPrevented (quitRun sockets es) = false →
      List.Sublist [QuitEvent.beforeQuit, QuitEvent.timerFires] es := by
    intro h
    apply ib
    simpa [beforeQuitPrevented] using h
  refine ⟨h1, ?_, id, ?_⟩
  · intro hn
    cases hp : beforeQuitPrevented (quitRun sockets es) with
    | true => rfl
    | false => exact absurd ((h1 hp).subset (by simp)) hn
  · rw [quitRun_snoc]
    simp only [quitStep]
    rw [(onBeforeQuit_fields _).2.2.2.2.2]
    cases hk : (quitRun sockets es).killedSockets <;>
      simp [beforeQuitCalls, beforeQuitPrevented, hk]

/-- Witness of C8 (amended): the first `before-quit` of a run is prevented. -/
theorem beforeQuit_prevented_until_timer_witness :
    QuitEvent.timerFires ∉ [QuitEvent.beforeQuit] ∧
    beforeQuitPrevented (quitRun [] [QuitEvent.beforeQuit]) = true :=
  ⟨by decide,
    (beforeQuit_prevented_until_timer [] [QuitEvent.beforeQuit]).2.1 (by decide)⟩

/-- With no timer and no stop pending, and no further `before-quit`, the shutdown code
never calls `app.quit()` again. -/
theorem quit_quiescent (post : List QuitEvent) (w : QuitWorld) (h1 : w.pendingTimers = 0)
    (h2 : w.pendingStops = 0) (hp : QuitEvent.beforeQuit ∉ post)
    (hq : Action.appQuit ∈ (post.foldl quitStep w).trace) : Action.appQuit ∈ w.trace := by
  induction post generalizing w with
  | nil => exact hq
  | cons e rest ih =>
    have hrest : QuitEvent.beforeQuit ∉ rest := fun h => hp (List.mem_cons_of_mem _ h)
    rw [List.foldl_cons] at hq
    cases e with
    | beforeQuit => exact absurd (List.mem_cons_self _ _) hp
    | destroyAllSettles ok =>
      by_cases h0 : w.pendingDestroyAll = 0
      · have hs : quitStep w (QuitEvent.destroyAllSettles ok) = w := by simp [quitStep, h0]
        rw [hs] at hq
        exact ih w h1 h2 hrest hq
      · cases ok
        · have := ih _ (by simp [quitStep, h0, onDestroyAllSettled, QuitWorld.emit, h1])
            (by simp [quitStep, h0, onDestroyAllSettled, QuitWorld.emit, h2]) hrest hq
          simpa [quitStep, h0, onDestroyAllSettled, QuitWorld.emit] using this
        · have := ih _ (by simp [quitStep, h0, onDestroyAllSettled, h1])
            (by simp [quitStep, h0, onDestroyAllSettled, h2]) hrest hq
          simpa [quitStep, h0, onDestroyAllSettled] using this
    | timerFires =>
      have hs : quitStep w QuitEvent.timerFires = w := by simp [quitStep, h1]
      rw [hs] at hq
      exact ih w h1 h2 hrest hq
    | stopSettles ok =>
      have hs : quitStep w (QuitEvent.stopSettles ok) = w := by simp [quitStep, h2]
      rw [hs] at hq
      exact ih w h1 h2 hrest hq

/-- C9: when `ethereumNode.stop()` rejects, nothing is logged and `app.quit()` is never
called.  After before-quit, the settling of `destroyAll`, the timer and the rejection of
stop, `killedSockets` is true, no timer and no promise is pending, and the trace holds
neither `app.quit()` nor a `log.error`; a rejection of `Sockets.destroyAll()`, in contrast,
is logged and the quit goes on. -/
theorem stop_rejection_never_quits :
    (quitRun [] [QuitEvent.beforeQuit, QuitEvent.destroyAllSettles true,
      QuitEvent.timerFires, QuitEvent.stopSettles false]).killedSockets = true ∧
    (quitRun [] [QuitEvent.beforeQuit, QuitEvent.destroyAllSettles true,
      QuitEvent.timerFires, QuitEvent.stopSettles false]).trace =
      [Action.preventDefault, Action.socketsDestroyAll, Action.setTimeout 500,
       Action.nodeStop] ∧
    (quitRun [] [QuitEvent.beforeQuit, QuitEvent.destroyAllSettles true,
      QuitEvent.timerFires, QuitEvent.stopSettles false]).pendingDestroyAll = 0 ∧
    (quitRun [] [QuitEvent.beforeQuit, QuitEvent.destroyAllSettles true,
      QuitEvent.timerFires, QuitEvent.stopSettles false]).pendingTimers = 0 ∧
    (quitRun [] [QuitEvent.beforeQuit, QuitEvent.destroyAllSettles true,
      QuitEvent.timerFires, QuitEvent.stopSettles false]).pendingStops = 0 ∧
    Action.appQuit ∉ (quitRun [] [QuitEvent.beforeQuit, QuitEvent.destroyAllSettles true,
      QuitEvent.timerFires, QuitEvent.stopSettles false]).trace ∧
    (quitRun [] [QuitEvent.beforeQuit, QuitEvent.destroyAllSettles true,
      QuitEvent.timerFires, QuitEvent.stopSettles false]).trace.filter Action.isLogError =
      [] ∧
    (quitRun [] [QuitEvent.beforeQuit, QuitEvent.destroyAllSettles false,
      QuitEvent.timerFires, QuitEvent.stopSettles true]).trace =
      [Action.preventDefault, Action.socketsDestroyAll, Action.setTimeout 500,
       Action.log "error" (lit "Error shutting down sockets") [], Action.nodeStop,
       Action.appQuit] := by
  refine ⟨by decide, by decide, by decide, by decide, by decide, by decide, by decide,
    by decide⟩

theorem removeFirstNewlines_append (pre rest : JSString)
    (h : ∀ c ∈ pre, isNewline c = false) :
    removeFirstNewlines (pre ++ rest) = pre ++ removeFirstNewlines rest := by
  induction pre with
  | nil => rfl
  | cons c cs ih =>
    have hc : isNewline c = false := h c (List.mem_cons_self _ _)
    have ht : ∀ x ∈ cs, isNewline x = false := fun x hx => h x (List.mem_cons_of_mem _ hx)
    simp [removeFirstNewlines, hc, ih ht]

theorem removeFirstNewlines_run (run post : JSString) (hne : run ≠ [])
    (hrun : ∀ c ∈ run, isNewline c = true)
    (hpost : ∀ c, post.head? = some c → isNewline c = false) :
    removeFirstNewlines (run ++ post) = post := by
  have hp : post.dropWhile isNewline = post := by
    cases post with
    | nil => rfl
    | cons c cs => simp [List.dropWhile_cons, hpost c rfl]
  cases run with
  | nil => exact absurd rfl hne
  | cons r rs =>
    have hr : isNewline r = true := hrun r (List.mem_cons_self _ _)
    have hrs : ∀ x ∈ rs, isNewline x = true := fun x hx => hrun x (List.mem_cons_of_mem _ hx)
    simp [removeFirstNewlines, hr, List.dropWhile_append_of_pos hrs, hp]

theorem onlyDashes_iff (s : JSString) : onlyDashes s = true ↔ ∀ c ∈ s, c = 45 := by
  induction s with
  | nil => simp [onlyDashes]
  | cons c cs ih =>
    by_cases hc : c = 45
    · subst hc
      simp only [onlyDashes] at ih
      simp [onlyDashes, List.dropWhile_cons, ih]
    · simp [onlyDashes, List.dropWhile_cons, hc]

theorem digitBracketAt_iff (s : JSString) (k : Nat) :
    digitBracketAt s k = true ↔
      ∃ a d b, s = a ++ d :: 93 :: b ∧ a.length = k ∧ isDigit d = true := by
  constructor
  · intro h
    unfold digitBracketAt at h
    split at h
    · rename_i d b rest hd
      simp only [Bool.and_eq_true, beq_iff_eq] at h
      refine ⟨s.take k, d, rest, ?_, ?_, h.1⟩
      · rw [← h.2, ← hd, List.take_append_drop]
      · have hl : (s.drop k).length = rest.length + 2 := by rw [hd]; simp
        rw [List.length_drop] at hl
        rw [List.length_take]
        omega
    · exact absurd h (by simp)
  · rintro ⟨a, d, b, rfl, rfl, hd⟩
    simp [digitBracketAt, hd]

theorem headerEndFrom_spec (s : JSString) (n : Nat) :
    (headerEndFrom s n = none ∧ ∀ k, k ≤ n → digitBracketAt s k = false) ∨
    (∃ k, k ≤ n ∧ headerEndFrom s n = some (k + 2) ∧ digitBracketAt s k = true ∧
      ∀ j, k < j → j ≤ n → digitBracketAt s j = false) := by
  induction n with
  | zero =>
    cases h : digitBracketAt s 0 with
    | false =>
      left
      refine ⟨by simp [headerEndFrom, h], fun k hk => ?_⟩
      have : k = 0 := by omega
      rw [this, h]
    | true =>
      right
      exact ⟨0, le_refl _, by simp [headerEndFrom, h], h, fun j h1 h2 => by omega⟩
  | succ n ih =>
    cases h : digitBracketAt s (n + 1) with
    | true =>
      right
      exact ⟨n + 1, le_refl _, by simp [headerEndFrom, h], h, fun j h1 h2 => by omega⟩
    | false =>
      rcases ih with ⟨h0, hall⟩ | ⟨k, hk, hk2, hk3, hk4⟩
      · left
        refine ⟨by simp [headerEndFrom, h, h0], fun k hk => ?_⟩
        by_cases hkn : k = n + 1
        · rw [hkn, h]
        · exact hall k (by omega)
      · right
        refine ⟨k, by omega, by simp [headerEndFrom, h, hk2], hk3, fun j h1 h2 => ?_⟩
        by_cases hjn : j = n + 1
        · rw [hjn, h]
        · exact hk4 j h1 (by omega)

theorem length_le_dotStarMax_iff (a rest : JSString) :
    a.length ≤ dotStarMax (a ++ rest) ↔ ∀ c ∈ a, isLineTerminator c = false := by
  constructor
  · intro h c hc
    have hp : a <+: (a ++ rest).takeWhile (fun c => !isLineTerminator c) :=
      List.prefix_of_prefix_length_le (List.prefix_append a rest)
        (List.takeWhile_prefix _) h
    have := List.mem_takeWhile_imp (hp.subset hc)
    simpa using this
  · intro h
    have hp : ∀ c ∈ a, (fun c => !isLineTerminator c) c = true := by
      intro c hc
      simp [h c hc]
    rw [dotStarMax, List.takeWhile_append_of_pos hp, List.length_append]
    omega

theorem stripLogHeader_match (s a b : JSString) (d : Nat) (hs : s = a ++ d :: 93 :: b)
    (hd : isDigit d = true) (ha : ∀ c ∈ a, isLineTerminator c = false)
    (hmax : ∀ (a2 b2 : JSString) (d2 : Nat), s = a2 ++ d2 :: 93 :: b2 → isDigit d2 = true →
      (∀ c ∈ a2, isLineTerminator c = false) → a2.length ≤ a.length) :
    stripLogHeader s = b := by
  have hk : a.length ≤ dotStarMax s := by
    rw [hs]
    exact (length_le_dotStarMax_iff a _).mpr ha
  have hdb : digitBracketAt s a.length = true :=
    (digitBracketAt_iff s a.length).mpr ⟨a, d, b, hs, rfl, hd⟩
  rcases headerEndFrom_spec s (dotStarMax s) with ⟨_, hall⟩ | ⟨k, hkn, hk2, hk3, hk4⟩
  · rw [hall a.length hk] at hdb
    exact absurd hdb (by simp)
  · obtain ⟨a2, d2, b2, hs2, hl2, hd2⟩ := (digitBracketAt_iff s k).mp hk3
    have ha2 : ∀ c ∈ a2, isLineTerminator c = false := by
      apply (length_le_dotStarMax_iff a2 (d2 :: 93 :: b2)).mp
      rw [← hs2, hl2]
      exact hkn
    have h1 : k ≤ a.length := by
      rw [← hl2]
      exact hmax a2 b2 d2 hs2 hd2 ha2
    have h2 : a.length ≤ k := by
      by_contra hlt
      have := hk4 a.length (by omega) hk
      rw [this] at hdb
      exact absurd hdb (by simp)
    have hke : k = a.length := by omega
    rw [stripLogHeader, hk2, hke, hs]
    simp

theorem stripLogHeader_no_match (s : JSString)
    (h : ∀ (a b : JSString) (d : Nat), s = a ++ d :: 93 :: b → isDigit d = true →
      ¬ ∀ c ∈ a, isLineTerminator c = false) :
    stripLogHeader s = s := by
  rcases headerEndFrom_spec s (dotStarMax s) with ⟨h0, _⟩ | ⟨k, hkn, _, hk3, _⟩
  · rw [stripLogHeader, h0]
  · obtain ⟨a2, d2, b2, hs2, hl2, hd2⟩ := (digitBracketAt_iff s k).mp hk3
    have ha2 : ∀ c ∈ a2, isLineTerminator c = false := by
      apply (length_le_dotStarMax_iff a2 (d2 :: 93 :: b2)).mp
      rw [← hs2, hl2]
      exact hkn
    exact absurd ha2 (h a2 b2 d2 hs2 hd2)

theorem logFunction_shown_iff (b : Bool) (s : JSString) :
    (b && !onlyDashes s && !s.isEmpty) = true ↔
      b = true ∧ s ≠ [] ∧ ¬ (∀ c ∈ s, c = 45) := by
  rw [← onlyDashes_iff]
  cases b <;> cases onlyDashes s <;> cases s <;> simp

theorem logFunction_trace (w : World) (d : JSString) :
    (logFunction d w).2.trace =
      w.trace ++ Action.nodeLoggerTrace (removeFirstNewlines d) ::
        (if w.appStartWindow = true ∧ removeFirstNewlines d ≠ [] ∧
            ¬ (∀ c ∈ removeFirstNewlines d, c = 45) then
          [Action.send "startScreenText" "logText"
            (some (stripLogHeader (removeFirstNewlines d)))]
        else []) := by
  rw [if_congr (logFunction_shown_iff w.appStartWindow (removeFirstNewlines d)).symm rfl rfl]
  simp only [logFunction, bind, Promise.then_, act, getWorld, World.emit, pure,
    Promise.resolve]
  by_cases hc : (w.appStartWindow && !onlyDashes (removeFirstNewlines d) &&
      !(removeFirstNewlines d).isEmpty) = true
  · rw [if_pos hc, if_pos hc]
    simp [act, World.emit]
  · rw [if_neg hc, if_neg hc]
    rfl

/-- C10: with `s` the chunk without its first run of CR/LF code units, `logFunction` logs
`s` and sends one `logText` status exactly when the splash window exists, `s` is not empty
and `s` does not consist of dashes only.  A chunk without CR/LF is unchanged, otherwise the
first maximal run is cut out.  The text sent is what follows the last digit followed by
a closing bracket that is preceded by no line terminator, and `s` itself when there is no
such place. -/
theorem logFunction_shows_line (w : World) (d : JSString) :
    (logFunction d w).2.trace =
      w.trace ++ Action.nodeLoggerTrace (removeFirstNewlines d) ::
        (if w.appStartWindow = true ∧ removeFirstNewlines d ≠ [] ∧
            ¬ (∀ c ∈ removeFirstNewlines d, c = 45) then
          [Action.send "startScreenText" "logText"
            (some (stripLogHeader (removeFirstNewlines d)))]
        else []) ∧
    (Action.send "startScreenText" "logText"
        (some (stripLogHeader (removeFirstNewlines d))) ∈
        (logFunction d w).2.trace.drop w.trace.length ↔
      w.appStartWindow = true ∧ removeFirstNewlines d ≠ [] ∧
        ¬ (∀ c ∈ removeFirstNewlines d, c = 45)) ∧
    ((∀ c ∈ d, isNewline c = false) → removeFirstNewlines d = d) ∧
    (∀ pre run post : JSString, d = pre ++ run ++ post →
      (∀ c ∈ pre, isNewline c = false) → run ≠ [] → (∀ c ∈ run, isNewline c = true) →
      (∀ c, post.head? = some c → isNewline c = false) →
      removeFirstNewlines d = pre ++ post) ∧
    (∀ (a b : JSString) (dg : Nat), removeFirstNewlines d = a ++ dg :: 93 :: b →
      isDigit dg = true → (∀ c ∈ a, isLineTerminator c = false) →
      (∀ (a2 b2 : JSString) (dg2 : Nat), removeFirstNewlines d = a2 ++ dg2 :: 93 :: b2 →
        isDigit dg2 = true → (∀ c ∈ a2, isLineTerminator c = false) →
        a2.length ≤ a.length) →
      stripLogHeader (removeFirstNewlines d) = b) ∧
    ((∀ (a b : JSString) (dg : Nat), removeFirstNewlines d = a ++ dg :: 93 :: b →
        isDigit dg = true → ¬ ∀ c ∈ a, isLineTerminator c = false) →
      stripLogHeader (removeFirstNewlines d) = removeFirstNewlines d) := by
  refine ⟨logFunction_trace w d, ?_, ?_, ?_, ?_, ?_⟩
  · rw [logFunction_trace w d, List.drop_left]
    by_cases hc : w.appStartWindow = true ∧ removeFirstNewlines d ≠ [] ∧
        ¬ (∀ c ∈ removeFirstNewlines d, c = 45)
    · simp [if_pos hc, hc]
    · rw [if_neg hc]
      constructor
      · intro hm
        simp at hm
      · intro hcond
        exact absurd hcond hc
  · intro h
    have := removeFirstNewlines_append d [] h
    simpa [removeFirstNewlines] using this
  · intro pre run post hd hpre hne hrun hpost
    rw [hd, List.append_assoc, removeFirstNewlines_append pre _ hpre,
      removeFirstNewlines_run run post hne hrun hpost]
  · intro a b dg hs hdg ha hmax
    exact stripLogHeader_match _ a b dg hs hdg ha hmax
  · intro h
    exact stripLogHeader_no_match _ h

/-- Witness of C10: a node output line with a log header and a trailing CR LF. -/
theorem logFunction_shows_line_witness :
    (logFunction (lit "I0405 10:40] Starting\r\n") readyWorld).2.trace =
      [Action.nodeLoggerTrace (lit "I0405 10:40] Starting"),
       Action.send "startScreenText" "logText" (some (lit " Starting"))] :=
  (logFunction_shows_line readyWorld (lit "I0405 10:40] Starting\r\n")).1.trans
    (by decide)

end Mist
